import Mathlib

/-!
Verification of the BlueSquirrelEtsyTool scoring core.

This file gives a shallow embedding of the two scoring components of the
repository and proves the specification's claims about them:

* `KeywordOptimizerAgent` (agents/keyword_optimizer/keyword_optimizer_agent.py):
  the keyword catalog, `_analyze_single_keyword`, `_determine_action` and
  `_get_replacement_suggestions`.
* `EtsyMarketResearcher` (EtsyAnalyzer/etsy-agents/agents/market_research/
  market_research_agent.py): `_is_opportunity_feasible`, the effort / impact /
  confidence scores, `_determine_timeline`, `_calculate_priority_score` and
  `research_market_opportunities`.

Python numeric conventions used by the embedding:

* Python `int` is `ℤ`; Python `float` is modelled exactly as `ℚ` (every
  numeric literal in the source is a short decimal, and the claims are about
  the algorithm, not about binary rounding).
* Python `//` on ints is floor division, `Int.fdiv`; `x // y` on floats is
  `⌊x / y⌋`; `int(x)` on a float truncates toward zero (`pyTrunc`).
* Python `x / y` raises `ZeroDivisionError` when `y == 0`;
  `analyzeSingleKeyword` therefore returns an `Option`, `none` standing for
  the raised exception.
* Python `keyword.lower().strip()` is modelled characterwise (`pyClean`);
  every keyword in the source data is ASCII, where the two agree.
-/

namespace EtsyTool

/-- Python `int(x)` on a float: truncation toward zero. -/
def pyTrunc (q : ℚ) : ℤ := if 0 ≤ q then ⌊q⌋ else ⌈q⌉

/-- Python `format(x, '.0f')`: round half to even to an integer. -/
def pyRound0 (q : ℚ) : ℤ :=
  let f := ⌊q⌋
  if q - f < 1/2 then f
  else if q - f > 1/2 then f + 1
  else if f % 2 = 0 then f else f + 1

/-- Python `s.lower()`, characterwise (ASCII data only in this repo). -/
def pyLower (s : String) : String := ⟨s.data.map Char.toLower⟩

/-- Python `s.strip()`: drop whitespace from both ends. -/
def pyStrip (s : String) : String :=
  ⟨((s.data.dropWhile Char.isWhitespace).reverse.dropWhile Char.isWhitespace).reverse⟩

/-- `keyword.lower().strip()` from `_analyze_single_keyword`. -/
def pyClean (s : String) : String := pyStrip (pyLower s)

/-! ## Keyword optimizer agent -/

/-- One record of `_initialize_keyword_database`:
`{"competition": ..., "relevance": ..., "trend": ...}`. -/
structure KeywordData where
  competition : String
  relevance : ℤ
  trend : String
deriving DecidableEq

/-- `KeywordOptimizerAgent._initialize_keyword_database`, verbatim. -/
def keywordPerformanceDb : List (String × KeywordData) :=
  [ ("resist", ⟨"High", 9, "stable"⟩),
    ("protest", ⟨"High", 8, "declining"⟩),
    ("political", ⟨"High", 7, "stable"⟩),
    ("government", ⟨"Medium", 9, "rising"⟩),
    ("bureaucrat", ⟨"Low", 10, "rising"⟩),
    ("civil servant", ⟨"Low", 9, "rising"⟩),
    ("federal employee", ⟨"Medium", 10, "rising"⟩),
    ("t shirt", ⟨"High", 6, "stable"⟩),
    ("tshirt", ⟨"High", 6, "stable"⟩),
    ("shirt", ⟨"High", 7, "stable"⟩),
    ("tee", ⟨"Medium", 8, "rising"⟩),
    ("apparel", ⟨"Medium", 6, "stable"⟩),
    ("clothing", ⟨"High", 5, "declining"⟩),
    ("sticker", ⟨"Medium", 9, "rising"⟩),
    ("decal", ⟨"Low", 8, "stable"⟩),
    ("mug", ⟨"High", 7, "stable"⟩),
    ("cup", ⟨"High", 6, "declining"⟩),
    ("hat", ⟨"Medium", 8, "stable"⟩),
    ("cap", ⟨"Medium", 7, "stable"⟩),
    ("gift", ⟨"High", 8, "stable"⟩),
    ("present", ⟨"Medium", 6, "declining"⟩),
    ("birthday gift", ⟨"High", 7, "stable"⟩),
    ("retirement gift", ⟨"Medium", 9, "rising"⟩),
    ("coworker gift", ⟨"Medium", 8, "rising"⟩),
    ("funny", ⟨"High", 8, "stable"⟩),
    ("humor", ⟨"Medium", 9, "rising"⟩),
    ("sarcastic", ⟨"Low", 9, "rising"⟩),
    ("satire", ⟨"Low", 10, "rising"⟩),
    ("witty", ⟨"Low", 8, "stable"⟩),
    ("beautiful", ⟨"High", 2, "declining"⟩),
    ("perfect", ⟨"High", 2, "declining"⟩),
    ("amazing", ⟨"High", 2, "declining"⟩),
    ("awesome", ⟨"High", 3, "declining"⟩),
    ("great", ⟨"High", 2, "declining"⟩),
    ("best", ⟨"High", 3, "stable"⟩),
    ("quality", ⟨"Medium", 4, "stable"⟩),
    ("deep state", ⟨"Low", 10, "rising"⟩),
    ("rogue", ⟨"Low", 10, "rising"⟩),
    ("opsec", ⟨"Low", 10, "rising"⟩),
    ("nato", ⟨"Low", 9, "rising"⟩),
    ("cybersecurity", ⟨"Medium", 9, "rising"⟩),
    ("classified", ⟨"Low", 8, "rising"⟩) ]

/-- The default record used by `dict.get` in `_analyze_single_keyword`:
`{"competition": "Unknown", "relevance": 5, "trend": "stable"}`. -/
def defaultKeywordData : KeywordData := ⟨"Unknown", 5, "stable"⟩

/-- `self.keyword_performance_db.get(keyword_clean, default)`. -/
def dbGet (keywordClean : String) : KeywordData :=
  (keywordPerformanceDb.lookup keywordClean).getD defaultKeywordData

/-- The table inside `_get_replacement_suggestions`, verbatim. -/
def replacementsTable : List (String × List String) :=
  [ ("political", ["government humor", "civic satire", "bureaucrat gift"]),
    ("funny", ["witty", "sarcastic", "humor"]),
    ("protest", ["resistance gear", "activist apparel", "dissent"]),
    ("t shirt", ["tee", "shirt design", "apparel"]),
    ("tshirt", ["tee", "graphic shirt", "statement shirt"]),
    ("beautiful", []),
    ("perfect", []),
    ("amazing", []),
    ("awesome", ["witty", "clever"]),
    ("great", ["quality", "premium"]),
    ("clothing", ["apparel", "shirt", "tee"]),
    ("cup", ["mug", "drinkware", "tumbler"]),
    ("present", ["gift", "coworker gift", "retirement gift"]),
    ("resist", ["resistance gear", "activist", "dissent"]),
    ("save democracy", ["democracy defender", "civic engagement", "voting rights"]) ]

/-- `KeywordOptimizerAgent._get_replacement_suggestions`:
`replacements.get(keyword, [])`. -/
def getReplacementSuggestions (keyword : String) : List String :=
  (replacementsTable.lookup keyword).getD []

/-- `KeywordOptimizerAgent._determine_action`, returning
`(action, reasoning)` exactly as the source does. -/
def determineAction (keyword : String) (keywordData : KeywordData)
    (frequencyRatio : ℚ) : String × String :=
  let relevance := keywordData.relevance
  let competition := keywordData.competition
  let trend := keywordData.trend
  if relevance ≤ 3 then
    ("Remove", "Low relevance (" ++ toString relevance ++
      "/10). Wasting valuable tag space.")
  else if keyword ∈ ["beautiful", "perfect", "amazing", "awesome", "great"]
      ∧ relevance ≤ 4 then
    ("Remove", "Quality descriptor adds no search value. Focus on specific product features.")
  else if competition = "High" ∧ trend = "declining" ∧ relevance ≤ 7 then
    ("Replace", "High competition, declining trend. Better alternatives available.")
  else if frequencyRatio > 4/5 ∧ relevance ≤ 8 then
    ("Replace", "Overused across " ++ toString (pyRound0 (frequencyRatio * 100)) ++
      "% of listings. Diversify keyword portfolio.")
  else if relevance ≥ 8 ∧ trend ∈ ["stable", "rising"] then
    ("Keep", "High relevance (" ++ toString relevance ++ "/10), " ++ trend ++
      " trend. Strong performer.")
  else
    ("Keep", "Moderate performance. Monitor and optimize placement.")

/-- The `KeywordAnalysis` dataclass. -/
structure KeywordAnalysis where
  keyword : String
  frequency_across_listings : ℤ
  estimated_competition : String
  relevance_score : ℚ
  replacement_suggestions : List String
  action_recommendation : String
  reasoning : String
deriving DecidableEq

/-- `KeywordOptimizerAgent._analyze_single_keyword`.  The source computes
`frequency / total_listings` unconditionally, so `total_listings == 0`
raises `ZeroDivisionError`: that path is `none` here. -/
def analyzeSingleKeyword (keyword : String) (frequency totalListings : ℤ) :
    Option KeywordAnalysis :=
  let keywordClean := pyClean keyword
  let keywordData := dbGet keywordClean
  if totalListings = 0 then none
  else
    let relevanceScore : ℚ := (keywordData.relevance : ℚ)
    let frequencyRatio : ℚ := (frequency : ℚ) / (totalListings : ℚ)
    let relevanceScore :=
      if frequencyRatio > 7/10 then relevanceScore * (4/5) else relevanceScore
    let replacements := getReplacementSuggestions keywordClean
    let actionReasoning := determineAction keywordClean keywordData frequencyRatio
    some
      { keyword := keyword
        frequency_across_listings := frequency
        estimated_competition := keywordData.competition
        relevance_score := relevanceScore
        replacement_suggestions := replacements
        action_recommendation := actionReasoning.1
        reasoning := actionReasoning.2 }

/-! ### Evaluation helpers -/

/-- Unfolding lemma for `analyzeSingleKeyword` away from the
`ZeroDivisionError` path. -/
lemma analyzeSingleKeyword_eq (kw : String) (f t : ℤ) (ht : ¬ t = 0) :
    analyzeSingleKeyword kw f t = some
      { keyword := kw
        frequency_across_listings := f
        estimated_competition := (dbGet (pyClean kw)).competition
        relevance_score :=
          if ((f : ℚ) / (t : ℚ)) > 7/10
          then ((dbGet (pyClean kw)).relevance : ℚ) * (4/5)
          else ((dbGet (pyClean kw)).relevance : ℚ)
        replacement_suggestions := getReplacementSuggestions (pyClean kw)
        action_recommendation :=
          (determineAction (pyClean kw) (dbGet (pyClean kw))
            ((f : ℚ) / (t : ℚ))).1
        reasoning :=
          (determineAction (pyClean kw) (dbGet (pyClean kw))
            ((f : ℚ) / (t : ℚ))).2 } := by
  simp only [analyzeSingleKeyword]
  rw [if_neg ht]

/-- Concrete action of `"satire"` at frequency ratio `9/10`. -/
lemma satire_action_eval :
    (determineAction "satire" ⟨"Low", 10, "rising"⟩ ((9 : ℚ) / 10)).1 = "Keep" := by
  simp only [determineAction]
  split_ifs with h1 h2 h3 h4 h5
  · exact absurd h1 (by decide)
  · exact absurd h2.1 (by decide)
  · exact absurd h3.1 (by decide)
  · exact absurd h4.2 (by decide)
  · rfl
  · rfl

/-- Concrete relevance of `"satire"` at 9 of 10 listings. -/
lemma satire_relevance_eval :
    (if ((9 : ℚ) / (10 : ℚ)) > 7/10 then ((10 : ℤ) : ℚ) * (4/5)
     else ((10 : ℤ) : ℚ)) = 8 := by norm_num

lemma dbGet_satire : dbGet (pyClean "satire") = ⟨"Low", 10, "rising"⟩ := by decide

lemma dbGet_beautiful : dbGet (pyClean "beautiful") = ⟨"High", 2, "declining"⟩ := by
  decide

lemma dbGet_resist : dbGet (pyClean "resist") = ⟨"High", 9, "stable"⟩ := by decide

/-! ### Claims about the keyword optimizer -/

/-- **C1 (counterexample).** The spec's scenario says `"satire"` used in 9 of
10 listings gets `recommended_action == "Replace"`.  The code disagrees: the
action rule reads the *unadjusted* catalog relevance (10), so the overuse
Replace rule (`relevance <= 8`) does not fire and the strong-performer rule
returns `"Keep"`. -/
theorem satire_overuse_claim_false :
    (analyzeSingleKeyword "satire" 9 10).map KeywordAnalysis.action_recommendation
      = some "Keep" ∧ ("Keep" : String) ≠ "Replace" := by
  constructor
  · rw [analyzeSingleKeyword_eq "satire" 9 10 (by norm_num), dbGet_satire]
    simpa using satire_action_eval
  · decide

/-- **C1 (amended).** For the keyword `"satire"` assessed with frequency 9 and
totalListings 10, the assessment has `adjusted_relevance == 8.0` (the overuse
penalty applies) and `recommended_action == "Keep"` (the action rule uses the
unadjusted catalog relevance 10, so the overuse Replace rule does not fire
while the `relevance ≥ 8`, rising-trend Keep rule does). -/
theorem satire_overuse_assessment :
    ∃ a, analyzeSingleKeyword "satire" 9 10 = some a ∧
      a.relevance_score = 8 ∧ a.action_recommendation = "Keep" := by
  refine ⟨_, analyzeSingleKeyword_eq "satire" 9 10 (by norm_num), ?_, ?_⟩
  · rw [dbGet_satire]
    simpa using satire_relevance_eval
  · rw [dbGet_satire]
    simpa using satire_action_eval

/-- **C2 (counterexample).** The claim allows `frequency == 0` with
`totalListings == 0` (the stated constraint `totalListings > 0` is conditional
on `frequency > 0`), but there `frequency / total_listings` raises
`ZeroDivisionError`; the embedding returns `none`. -/
theorem assess_zero_division_claim_false :
    ((0 : ℤ) > 0 → (0 : ℤ) > 0) ∧ analyzeSingleKeyword "satire" 0 0 = none :=
  ⟨fun h => h, rfl⟩

/-- **C2 (amended).** `assess(keyword, frequency, totalListings)` has no
failure modes whenever `totalListings > 0` (unconditionally, not merely when
`frequency > 0`): the assessment is always produced. -/
theorem assess_total_under_positive_listings (kw : String) (f t : ℤ)
    (ht : 0 < t) : (analyzeSingleKeyword kw f t).isSome = true := by
  rw [analyzeSingleKeyword_eq kw f t (by omega)]
  rfl

/-- Witness for `assess_total_under_positive_listings` at a concrete input. -/
theorem assess_total_under_positive_listings_witness :
    0 < (10 : ℤ) ∧ (analyzeSingleKeyword "satire" 9 10).isSome = true :=
  ⟨by norm_num, assess_total_under_positive_listings "satire" 9 10 (by norm_num)⟩

/-- **C7 (confirmed).** For every keyword, frequency, and `totalListings > 0`,
the adjusted relevance is the catalog relevance times `0.8` when
`frequency / totalListings > 0.7` and the catalog relevance unchanged
otherwise; in particular `"beautiful"` (catalog relevance 2) at 5 of 10
listings yields `adjusted_relevance == 2` and `recommended_action == "Remove"`. -/
theorem adjusted_relevance_formula :
    (∀ (kw : String) (f t : ℤ), 0 < t →
      ∃ a, analyzeSingleKeyword kw f t = some a ∧
        a.relevance_score =
          (if ((f : ℚ) / (t : ℚ)) > 7/10
           then ((dbGet (pyClean kw)).relevance : ℚ) * (4/5)
           else ((dbGet (pyClean kw)).relevance : ℚ))) ∧
    (∃ a, analyzeSingleKeyword "beautiful" 5 10 = some a ∧
      a.relevance_score = 2 ∧ a.action_recommendation = "Remove") := by
  constructor
  · intro kw f t ht
    exact ⟨_, analyzeSingleKeyword_eq kw f t (by omega), rfl⟩
  · refine ⟨_, analyzeSingleKeyword_eq "beautiful" 5 10 (by norm_num), ?_, ?_⟩
    · rw [dbGet_beautiful]
      norm_num
    · rw [dbGet_beautiful]
      simp only [determineAction]
      rw [if_pos (by decide)]

/-- Witness for `adjusted_relevance_formula` at a concrete input. -/
theorem adjusted_relevance_formula_witness :
    0 < (10 : ℤ) ∧
    (∃ a, analyzeSingleKeyword "government" 3 10 = some a ∧
      a.relevance_score =
        (if (((3 : ℤ) : ℚ) / ((10 : ℤ) : ℚ)) > 7/10
         then ((dbGet (pyClean "government")).relevance : ℚ) * (4/5)
         else ((dbGet (pyClean "government")).relevance : ℚ))) :=
  ⟨by norm_num, adjusted_relevance_formula.1 "government" 3 10 (by norm_num)⟩

/-- **C8 (confirmed).** Every keyword whose catalog relevance is at most 3 is
always recommended `"Remove"`, for every frequency and positive number of
listings. -/
theorem low_relevance_always_remove (kw : String) (f t : ℤ) (ht : 0 < t)
    (hrel : (dbGet (pyClean kw)).relevance ≤ 3) :
    ∃ a, analyzeSingleKeyword kw f t = some a ∧
      a.action_recommendation = "Remove" := by
  refine ⟨_, analyzeSingleKeyword_eq kw f t (by omega), ?_⟩
  simp only [determineAction]
  rw [if_pos hrel]

/-- Witness for `low_relevance_always_remove` at a concrete input. -/
theorem low_relevance_always_remove_witness :
    0 < (10 : ℤ) ∧ (dbGet (pyClean "beautiful")).relevance ≤ 3 ∧
    (∃ a, analyzeSingleKeyword "beautiful" 7 10 = some a ∧
      a.action_recommendation = "Remove") :=
  ⟨by norm_num, by decide,
    low_relevance_always_remove "beautiful" 7 10 (by norm_num) (by decide)⟩

/-- **C10 (confirmed).** The replacement suggestions of every assessment are
exactly the fixed table entry for the lower-cased (and stripped) keyword,
empty when the keyword is absent from the table, independently of the
recommended action; and `"resist"`, whose action is `"Keep"`, carries
non-empty suggestions. -/
theorem replacement_suggestions_from_table :
    (∀ (kw : String) (f t : ℤ), 0 < t →
      ∃ a, analyzeSingleKeyword kw f t = some a ∧
        a.replacement_suggestions = getReplacementSuggestions (pyClean kw)) ∧
    (∀ kw : String, replacementsTable.lookup kw = none →
      getReplacementSuggestions kw = []) ∧
    (∃ a, analyzeSingleKeyword "resist" 1 10 = some a ∧
      a.action_recommendation = "Keep" ∧ a.replacement_suggestions ≠ []) := by
  refine ⟨?_, ?_, ?_⟩
  · intro kw f t ht
    exact ⟨_, analyzeSingleKeyword_eq kw f t (by omega), rfl⟩
  · intro kw h
    simp [getReplacementSuggestions, h]
  · refine ⟨_, analyzeSingleKeyword_eq "resist" 1 10 (by norm_num), ?_, ?_⟩
    · rw [dbGet_resist]
      simp only [determineAction]
      split_ifs with h1 h2 h3 h4 h5
      · exact absurd h1 (by decide)
      · exact absurd h2.1 (by decide)
      · exact absurd h3.2.1 (by decide)
      · exact absurd h4.2 (by decide)
      · rfl
      · rfl
    · decide

/-- Witness for `replacement_suggestions_from_table` at a concrete input. -/
theorem replacement_suggestions_from_table_witness :
    0 < (10 : ℤ) ∧
    (∃ a, analyzeSingleKeyword "political" 2 10 = some a ∧
      a.replacement_suggestions = getReplacementSuggestions (pyClean "political")) :=
  ⟨by norm_num,
    replacement_suggestions_from_table.1 "political" 2 10 (by norm_num)⟩

/-! ## Market research agent -/

/-- `competition_level`, restricted as in the source comment to
`"Low"`, `"Medium"`, `"High"` (the penalty dict of
`_calculate_impact_score` raises `KeyError` on anything else, and every
claim restricts itself to these three values). -/
inductive CompetitionLevel where
  | low
  | medium
  | high
deriving DecidableEq

/-- One entry of the `potential_opportunities` list: the raw candidate
dict consumed by `_is_opportunity_feasible` and the score calculators. -/
structure OppData where
  name : String
  category : String
  search_volume : ℤ
  competition_level : CompetitionLevel
  avg_price : ℚ
  seasonal_factor : ℚ
  keywords : List String
  skill_requirements : List String
  resource_requirements : List String
deriving DecidableEq

/-- The `CapabilityProfile` dataclass (Python sets become lists; only
membership and cardinality of set differences are ever used). -/
structure CapabilityProfile where
  skills : List String
  tools_available : List String
  tools_not_available : List String
  time_availability : List (String × ℤ)
  budget : ℚ
  learning_capacity : String
deriving DecidableEq

/-- The parts of `_default_config` that the scoring core reads. -/
structure MarketConfig where
  excluded_categories : List String
  preferred_categories : List String
deriving DecidableEq

/-- `EtsyMarketResearcher._default_config`. -/
def defaultConfig : MarketConfig :=
  { excluded_categories :=
      ["woodworking", "metalworking", "glass blowing", "pottery wheel",
       "jewelry casting", "leather working", "screen printing"]
    preferred_categories :=
      ["digital products", "printables", "simple crafts", "planning",
       "stickers", "cards", "simple sewing", "knitting", "crochet"] }

/-- `EtsyMarketResearcher._load_capability_profile`. -/
def defaultCapabilityProfile : CapabilityProfile :=
  { skills := ["digital_design", "basic_sewing", "writing", "planning",
      "organization"]
    tools_available := ["computer", "printer", "basic_sewing_supplies",
      "design_software"]
    tools_not_available := ["woodworking_tools", "pottery_wheel",
      "metalworking", "advanced_machinery"]
    time_availability := [("quick_wins", 2), ("weekend_projects", 8),
      ("major_initiatives", 40)]
    budget := 200
    learning_capacity := "Medium" }

/-- The number of distinct required skills the profile lacks:
`len(set(skill_requirements) - profile.skills)`. -/
def missingSkillCount (profile : CapabilityProfile) (o : OppData) : ℕ :=
  (o.skill_requirements.dedup.filter
    (fun s => decide (s ∉ profile.skills))).length

/-- `EtsyMarketResearcher._is_opportunity_feasible`. -/
def isOpportunityFeasible (cfg : MarketConfig) (profile : CapabilityProfile)
    (o : OppData) : Bool :=
  if o.category ∈ cfg.excluded_categories then false
  else if (¬ ∀ s ∈ o.skill_requirements, s ∈ profile.skills) ∧
      profile.learning_capacity = "Low" ∧ missingSkillCount profile o > 1 then
    false
  else if ∃ t ∈ o.resource_requirements, t ∈ profile.tools_not_available then
    false
  else true

/-- `EtsyMarketResearcher._calculate_effort_score`. -/
def calculateEffortScore (cfg : MarketConfig) (profile : CapabilityProfile)
    (o : OppData) : ℤ :=
  let baseEffort : ℤ := 2
  let baseEffort := baseEffort + (missingSkillCount profile o : ℤ)
  let baseEffort :=
    if o.competition_level = CompetitionLevel.high then baseEffort + 1
    else if o.competition_level = CompetitionLevel.low then baseEffort - 1
    else baseEffort
  let baseEffort :=
    if o.category ∈ cfg.preferred_categories then baseEffort - 1 else baseEffort
  max 1 (min 5 baseEffort)

/-- `EtsyMarketResearcher._calculate_impact_score`.  Python `//` is floor
division (`Int.fdiv`, `⌊·/·⌋` on floats) and `int(...)` truncates toward
zero (`pyTrunc`). -/
def calculateImpactScore (o : OppData) : ℤ :=
  let volumeScore := min 5 (max 1 (Int.fdiv o.search_volume 1000 + 1))
  let priceScore := min 5 (max 1 ⌊o.avg_price / 10⌋)
  let seasonalScore := min 5 (pyTrunc (o.seasonal_factor * 3))
  let competitionPenalty : ℤ :=
    match o.competition_level with
    | CompetitionLevel.low => 0
    | CompetitionLevel.medium => -1
    | CompetitionLevel.high => -2
  let impact := Int.fdiv (volumeScore + priceScore + seasonalScore) 3 +
    competitionPenalty
  max 1 (min 5 impact)

/-- `EtsyMarketResearcher._calculate_confidence_score`. -/
def calculateConfidenceScore (profile : CapabilityProfile) (o : OppData) : ℤ :=
  let confidence : ℤ := 3
  let skillOverlap :=
    (o.skill_requirements.dedup.filter
      (fun s => decide (s ∈ profile.skills))).length
  let confidence := confidence + min 2 (skillOverlap : ℤ)
  let confidence :=
    if o.competition_level = CompetitionLevel.high then confidence - 1
    else confidence
  max 1 (min 5 confidence)

/-- `EtsyMarketResearcher._determine_timeline`.  The source takes the raw
candidate as a second argument but never reads it. -/
def determineTimeline (effortScore : ℤ) (oppData : OppData) : String :=
  if effortScore ≤ 2 then "Quick Win"
  else if effortScore = 3 then "Weekend Project"
  else if effortScore = 4 then "Major Initiative"
  else "Long-term Strategy"

/-- The `MarketOpportunity` dataclass. -/
structure MarketOpportunity where
  name : String
  category : String
  search_volume : ℤ
  competition_level : CompetitionLevel
  avg_price : ℚ
  seasonal_factor : ℚ
  keywords : List String
  skill_requirements : List String
  resource_requirements : List String
  effort_score : ℤ
  impact_score : ℤ
  confidence_score : ℤ
  timeline : String
deriving DecidableEq

/-- `EtsyMarketResearcher._create_market_opportunity`. -/
def createMarketOpportunity (cfg : MarketConfig) (profile : CapabilityProfile)
    (o : OppData) : MarketOpportunity :=
  let effortScore := calculateEffortScore cfg profile o
  let impactScore := calculateImpactScore o
  let confidenceScore := calculateConfidenceScore profile o
  let timeline := determineTimeline effortScore o
  { name := o.name
    category := o.category
    search_volume := o.search_volume
    competition_level := o.competition_level
    avg_price := o.avg_price
    seasonal_factor := o.seasonal_factor
    keywords := o.keywords
    skill_requirements := o.skill_requirements
    resource_requirements := o.resource_requirements
    effort_score := effortScore
    impact_score := impactScore
    confidence_score := confidenceScore
    timeline := timeline }

/-- `EtsyMarketResearcher._calculate_priority_score`:
`(reach * impact * confidence) / effort` with `reach = search_volume / 1000`. -/
def calculatePriorityScore (opp : MarketOpportunity) : ℚ :=
  let reach := (opp.search_volume : ℚ) / 1000
  let impact := (opp.impact_score : ℚ)
  let confidence := (opp.confidence_score : ℚ)
  let effort := (opp.effort_score : ℚ)
  (reach * impact * confidence) / effort

/-- The filter / create / sort pipeline of
`EtsyMarketResearcher.research_market_opportunities`, over an arbitrary
candidate list (`sorted(..., reverse=True)` is a stable descending sort). -/
def researchPipeline (cfg : MarketConfig) (profile : CapabilityProfile)
    (cands : List OppData) : List MarketOpportunity :=
  (((cands.filter (isOpportunityFeasible cfg profile)).map
      (createMarketOpportunity cfg profile)).mergeSort
    (fun a b => decide (calculatePriorityScore b ≤ calculatePriorityScore a)))

/-- The hardcoded `potential_opportunities` list of
`research_market_opportunities`. -/
def potentialOpportunities : List OppData :=
  [ { name := "Digital Planning Printables"
      category := "digital_products"
      search_volume := 5000
      competition_level := CompetitionLevel.medium
      avg_price := 25/2
      seasonal_factor := 6/5
      keywords := ["digital planner", "printable planner", "goal setting",
        "productivity"]
      skill_requirements := ["digital_design", "planning"]
      resource_requirements := ["design_software", "time"] },
    { name := "Custom Wedding Stickers"
      category := "stickers"
      search_volume := 3200
      competition_level := CompetitionLevel.high
      avg_price := 35/4
      seasonal_factor := 3/2
      keywords := ["wedding stickers", "custom labels", "bridal shower"]
      skill_requirements := ["digital_design", "customer_service"]
      resource_requirements := ["design_software", "printer", "sticker_paper"] },
    { name := "Handmade Baby Bibs"
      category := "sewing"
      search_volume := 2100
      competition_level := CompetitionLevel.low
      avg_price := 15
      seasonal_factor := 1
      keywords := ["baby bib", "handmade", "personalized", "organic"]
      skill_requirements := ["basic_sewing", "pattern_following"]
      resource_requirements := ["sewing_machine", "fabric", "thread"] },
    { name := "Wooden Cutting Boards"
      category := "woodworking"
      search_volume := 4500
      competition_level := CompetitionLevel.medium
      avg_price := 35
      seasonal_factor := 13/10
      keywords := ["cutting board", "wooden", "handmade", "kitchen"]
      skill_requirements := ["woodworking", "finishing"]
      resource_requirements := ["woodworking_tools", "wood", "workspace"] } ]

/-- `research_market_opportunities` on the default configuration and the
hardcoded candidate list. -/
def researchMarketOpportunities : List MarketOpportunity :=
  researchPipeline defaultConfig defaultCapabilityProfile potentialOpportunities

/-- Modelled from the spec's §4.2 `impact_score` formula, word for word, for
the refinement claim: `volumeScore = clamp(search_volume // 1000 + 1, 1, 5)`,
`priceScore = clamp(avg_price // 10, 1, 5)`,
`seasonalScore = clamp(seasonal_factor * 3, 0, 5)`,
`impact = (volumeScore + priceScore + seasonalScore) // 3 +
competitionPenalty`, clamped to `[1, 5]`. -/
def impactScoreSpecFormula (o : OppData) : ℤ :=
  let volumeScore := max 1 (min 5 (Int.fdiv o.search_volume 1000 + 1))
  let priceScore := max 1 (min 5 ⌊o.avg_price / 10⌋)
  let seasonalScore : ℚ := max 0 (min 5 (o.seasonal_factor * 3))
  let competitionPenalty : ℤ :=
    match o.competition_level with
    | CompetitionLevel.low => 0
    | CompetitionLevel.medium => -1
    | CompetitionLevel.high => -2
  let impact := ⌊(((volumeScore + priceScore : ℤ) : ℚ) + seasonalScore) / 3⌋ +
    competitionPenalty
  max 1 (min 5 impact)

/-! ### Helper lemmas for the market researcher -/

/-- A final `max(1, min(5, x))` clamp lands in `[1, 5]`. -/
lemma clamp15_bounds (x : ℤ) : 1 ≤ max 1 (min 5 x) ∧ max 1 (min 5 x) ≤ 5 := by
  omega

/-- The two clamp orientations agree on `ℤ`. -/
lemma clamp15_comm (x : ℤ) : min 5 (max 1 x) = max 1 (min 5 x) := by
  omega

/-- More than one distinct missing skill means the requirements are not a
subset of the profile's skills. -/
lemma not_subset_of_missing (profile : CapabilityProfile) (o : OppData)
    (h : missingSkillCount profile o > 1) :
    ¬ ∀ s ∈ o.skill_requirements, s ∈ profile.skills := by
  intro hall
  unfold missingSkillCount at h
  have hlen : 0 < (o.skill_requirements.dedup.filter
      (fun s => decide (s ∉ profile.skills))).length := by omega
  obtain ⟨x, hx⟩ := List.exists_mem_of_length_pos hlen
  rw [List.mem_filter] at hx
  have hxm : x ∈ o.skill_requirements := List.mem_dedup.mp hx.1
  have : x ∉ profile.skills := of_decide_eq_true hx.2
  exact this (hall x hxm)

/-- Dividing an integer plus a fractional part by 3 floors to the integer's
floor division. -/
lemma floor_add_fract_div3 (N : ℤ) (r : ℚ) (h0 : 0 ≤ r) (h1 : r < 1) :
    ⌊((N : ℚ) + r) / 3⌋ = Int.fdiv N 3 := by
  have hd : (3 : ℤ) * Int.fdiv N 3 + Int.fmod N 3 = N := Int.fdiv_add_fmod N 3
  have hm0 : (0 : ℤ) ≤ Int.fmod N 3 := Int.fmod_nonneg' N (by norm_num)
  have hm3 : Int.fmod N 3 < 3 := Int.fmod_lt_of_pos N (by norm_num)
  have hdQ : (3 : ℚ) * ((Int.fdiv N 3 : ℤ) : ℚ) + ((Int.fmod N 3 : ℤ) : ℚ)
      = (N : ℚ) := by exact_mod_cast hd
  have hm0Q : (0 : ℚ) ≤ ((Int.fmod N 3 : ℤ) : ℚ) := by exact_mod_cast hm0
  have hm2Q : ((Int.fmod N 3 : ℤ) : ℚ) ≤ 2 := by
    exact_mod_cast (by omega : Int.fmod N 3 ≤ 2)
  rw [Int.floor_eq_iff]
  constructor
  · rw [le_div_iff (by norm_num : (0 : ℚ) < 3)]
    linarith
  · rw [div_lt_iff (by norm_num : (0 : ℚ) < 3)]
    push_cast
    linarith

/-- Floor division by 3 of an integer plus a rational. -/
lemma floor_int_add_div3 (M : ℤ) (q : ℚ) :
    ⌊((M : ℚ) + q) / 3⌋ = Int.fdiv (M + ⌊q⌋) 3 := by
  have h0 : 0 ≤ q - (⌊q⌋ : ℚ) := by
    have := Int.floor_le q
    linarith
  have h1 : q - (⌊q⌋ : ℚ) < 1 := by
    have := Int.lt_floor_add_one q
    linarith
  have h := floor_add_fract_div3 (M + ⌊q⌋) (q - (⌊q⌋ : ℚ)) h0 h1
  rw [← h]
  congr 1
  push_cast
  ring

/-- Python `int(x)` is the floor on nonnegative rationals. -/
lemma pyTrunc_nonneg_eq_floor (q : ℚ) (h : 0 ≤ q) : pyTrunc q = ⌊q⌋ := by
  unfold pyTrunc
  rw [if_pos h]

/-- `Int.floor` commutes with capping at 5. -/
lemma floor_min5 (q : ℚ) : ⌊min 5 q⌋ = min 5 ⌊q⌋ := by
  rcases le_total q 5 with h | h
  · rw [min_eq_right h]
    have hle : ⌊q⌋ ≤ 5 := by
      have := Int.floor_le_floor h
      simpa using this
    exact (min_eq_right hle).symm
  · rw [min_eq_left h]
    have h5 : (5 : ℤ) ≤ ⌊q⌋ := Int.le_floor.mpr (by exact_mod_cast h)
    rw [(by norm_num : (⌊(5 : ℚ)⌋ : ℤ) = 5)]
    exact (min_eq_left h5).symm

/-! ### Claims about the market researcher -/

/-- **C3 (confirmed).** A candidate is infeasible (and hence excluded from the
scored output of `research_market_opportunities`) exactly when its category is
excluded, or its required tools intersect the unavailable tools, or learning
capacity is `"Low"` with more than one distinct missing skill; and the scored
output is exactly the scored versions of the feasible candidates. -/
theorem feasibility_exclusion_iff :
    (∀ (cfg : MarketConfig) (profile : CapabilityProfile) (o : OppData),
      isOpportunityFeasible cfg profile o = true ↔
        ¬ (o.category ∈ cfg.excluded_categories ∨
           (∃ t ∈ o.resource_requirements, t ∈ profile.tools_not_available) ∨
           (profile.learning_capacity = "Low" ∧
             missingSkillCount profile o > 1))) ∧
    (∀ (cfg : MarketConfig) (profile : CapabilityProfile)
        (cands : List OppData),
      List.Perm (researchPipeline cfg profile cands)
        ((cands.filter (isOpportunityFeasible cfg profile)).map
          (createMarketOpportunity cfg profile))) := by
  constructor
  · intro cfg profile o
    unfold isOpportunityFeasible
    split_ifs with h1 h2 h3
    · simp only [Bool.false_eq_true, false_iff, not_not]
      exact Or.inl h1
    · simp only [Bool.false_eq_true, false_iff, not_not]
      exact Or.inr (Or.inr ⟨h2.2.1, h2.2.2⟩)
    · simp only [Bool.false_eq_true, false_iff, not_not]
      exact Or.inr (Or.inl h3)
    · simp only [true_iff]
      rintro (hc | ht | ⟨hlow, hmiss⟩)
      · exact h1 hc
      · exact h3 ht
      · exact h2 ⟨not_subset_of_missing profile o hmiss, hlow, hmiss⟩
  · intro cfg profile cands
    exact List.mergeSort_perm _ _

/-- **C5 (confirmed).** All three sub-scores land in `[1, 5]` for every
candidate and profile, whatever the magnitudes of the inputs. -/
theorem sub_scores_in_range (cfg : MarketConfig) (profile : CapabilityProfile)
    (o : OppData) :
    (1 ≤ calculateEffortScore cfg profile o ∧
      calculateEffortScore cfg profile o ≤ 5) ∧
    (1 ≤ calculateImpactScore o ∧ calculateImpactScore o ≤ 5) ∧
    (1 ≤ calculateConfidenceScore profile o ∧
      calculateConfidenceScore profile o ≤ 5) :=
  ⟨clamp15_bounds _, clamp15_bounds _, clamp15_bounds _⟩

/-- **C9 (confirmed).** `timeline_bucket` is a total function of
`effort_score` alone (the source's unused second argument is irrelevant),
with the four fixed thresholds; each effort value selects exactly one of the
four buckets; and every scored opportunity's stored timeline is the one
determined by its effort score. -/
theorem timeline_bucket_determination :
    (∀ (e : ℤ) (o o' : OppData), determineTimeline e o = determineTimeline e o') ∧
    (∀ (e : ℤ) (o : OppData),
      (e ≤ 2 → determineTimeline e o = "Quick Win") ∧
      (e = 3 → determineTimeline e o = "Weekend Project") ∧
      (e = 4 → determineTimeline e o = "Major Initiative") ∧
      (5 ≤ e → determineTimeline e o = "Long-term Strategy")) ∧
    (∀ (e : ℤ) (o : OppData),
      (["Quick Win", "Weekend Project", "Major Initiative",
        "Long-term Strategy"].count (determineTimeline e o)) = 1) ∧
    (∀ (cfg : MarketConfig) (profile : CapabilityProfile) (o : OppData),
      (createMarketOpportunity cfg profile o).timeline =
        determineTimeline ((createMarketOpportunity cfg profile o).effort_score)
          o) := by
  refine ⟨?_, ?_, ?_, ?_⟩
  · intro e o o'
    unfold determineTimeline
    rfl
  · intro e o
    unfold determineTimeline
    refine ⟨?_, ?_, ?_, ?_⟩ <;> intro h <;> split_ifs with h1 h2 h3 <;>
      first | rfl | omega
  · intro e o
    unfold determineTimeline
    split_ifs <;> decide
  · intro cfg profile o
    rfl

/-- Witness for `timeline_bucket_determination` at concrete efforts. -/
theorem timeline_bucket_determination_witness :
    ((2 : ℤ) ≤ 2 ∧
      determineTimeline 2 ⟨"x", "c", 0, CompetitionLevel.low, 0, 0, [], [], []⟩
        = "Quick Win") ∧
    ((3 : ℤ) = 3 ∧
      determineTimeline 3 ⟨"x", "c", 0, CompetitionLevel.low, 0, 0, [], [], []⟩
        = "Weekend Project") ∧
    ((4 : ℤ) = 4 ∧
      determineTimeline 4 ⟨"x", "c", 0, CompetitionLevel.low, 0, 0, [], [], []⟩
        = "Major Initiative") ∧
    ((5 : ℤ) ≤ 5 ∧
      determineTimeline 5 ⟨"x", "c", 0, CompetitionLevel.low, 0, 0, [], [], []⟩
        = "Long-term Strategy") :=
  ⟨⟨le_refl 2,
    (timeline_bucket_determination.2.1 2 _).1 (by norm_num)⟩,
   ⟨rfl, ((timeline_bucket_determination.2.1 3 _).2.1 rfl)⟩,
   ⟨rfl, ((timeline_bucket_determination.2.1 4 _).2.2.1 rfl)⟩,
   ⟨le_refl 5, ((timeline_bucket_determination.2.1 5 _).2.2.2 (by norm_num))⟩⟩

/-- **C6 (confirmed).** `priority_score` is non-decreasing in `impact_score`
and in `confidence_score`, and non-increasing in `effort_score`, the other
arguments held fixed, for `search_volume ≥ 0` and sub-scores in `[1, 5]`. -/
theorem priority_score_monotonicity (o : MarketOpportunity)
    (hsv : 0 ≤ o.search_volume) :
    (∀ i i' c e : ℤ, 1 ≤ i → i ≤ i' → i' ≤ 5 → 1 ≤ c → c ≤ 5 → 1 ≤ e → e ≤ 5 →
      calculatePriorityScore
        { o with impact_score := i, confidence_score := c, effort_score := e } ≤
      calculatePriorityScore
        { o with impact_score := i', confidence_score := c, effort_score := e }) ∧
    (∀ i c c' e : ℤ, 1 ≤ i → i ≤ 5 → 1 ≤ c → c ≤ c' → c' ≤ 5 → 1 ≤ e → e ≤ 5 →
      calculatePriorityScore
        { o with impact_score := i, confidence_score := c, effort_score := e } ≤
      calculatePriorityScore
        { o with impact_score := i, confidence_score := c', effort_score := e }) ∧
    (∀ i c e e' : ℤ, 1 ≤ i → i ≤ 5 → 1 ≤ c → c ≤ 5 → 1 ≤ e → e ≤ e' → e' ≤ 5 →
      calculatePriorityScore
        { o with impact_score := i, confidence_score := c, effort_score := e' } ≤
      calculatePriorityScore
        { o with impact_score := i, confidence_score := c, effort_score := e }) := by
  have hA : (0 : ℚ) ≤ (o.search_volume : ℚ) / 1000 :=
    div_nonneg (by exact_mod_cast hsv) (by norm_num)
  refine ⟨?_, ?_, ?_⟩
  · intro i i' c e hi hii hi5 hc hc5 he he5
    simp only [calculatePriorityScore]
    rw [div_le_div_right
      (by exact_mod_cast (by omega : (0 : ℤ) < e) : (0 : ℚ) < (e : ℚ))]
    exact mul_le_mul_of_nonneg_right
      (mul_le_mul_of_nonneg_left (by exact_mod_cast hii) hA)
      (by exact_mod_cast (by omega : (0 : ℤ) ≤ c))
  · intro i c c' e hi hi5 hc hcc hc5 he he5
    simp only [calculatePriorityScore]
    rw [div_le_div_right
      (by exact_mod_cast (by omega : (0 : ℤ) < e) : (0 : ℚ) < (e : ℚ))]
    exact mul_le_mul_of_nonneg_left (by exact_mod_cast hcc)
      (mul_nonneg hA (by exact_mod_cast (by omega : (0 : ℤ) ≤ i)))
  · intro i c e e' hi hi5 hc hc5 he hee he5
    simp only [calculatePriorityScore]
    have hN : (0 : ℚ) ≤ (o.search_volume : ℚ) / 1000 * (i : ℚ) * (c : ℚ) :=
      mul_nonneg (mul_nonneg hA (by exact_mod_cast (by omega : (0 : ℤ) ≤ i)))
        (by exact_mod_cast (by omega : (0 : ℤ) ≤ c))
    have he0 : (0 : ℚ) < (e : ℚ) := by exact_mod_cast (by omega : (0 : ℤ) < e)
    have he'0 : (0 : ℚ) < (e' : ℚ) := by
      exact_mod_cast (by omega : (0 : ℤ) < e')
    rw [div_le_div_iff he'0 he0]
    exact mul_le_mul_of_nonneg_left (by exact_mod_cast hee) hN

/-- **C4 (counterexample).** The spec's impact formula clamps the seasonal
term to `[0, 5]`; the code computes `min(5, int(seasonal_factor * 3))` with no
lower clamp (and truncation toward zero).  At `seasonal_factor = -10`
(`search_volume = 5000`, `avg_price = 50`, competition Low) the code yields
impact 1 while the spec formula yields 3. -/
theorem impact_formula_claim_false :
    calculateImpactScore
      ⟨"x", "c", 5000, CompetitionLevel.low, 50, -10, [], [], []⟩ = 1 ∧
    impactScoreSpecFormula
      ⟨"x", "c", 5000, CompetitionLevel.low, 50, -10, [], [], []⟩ = 3 ∧
    (1 : ℤ) ≠ 3 := by
  have hp : (⌊(50 : ℚ) / 10⌋ : ℤ) = 5 := by norm_num
  refine ⟨?_, ?_, by norm_num⟩
  · have hs : pyTrunc ((-10 : ℚ) * 3) = -30 := by
      unfold pyTrunc
      rw [if_neg (by norm_num),
        (by norm_num : ((-10 : ℚ) * 3) = (((-30 : ℤ) : ℚ))), Int.ceil_intCast]
    simp only [calculateImpactScore]
    rw [hp, hs]
    decide
  · have hs2 : max 0 (min 5 ((-10 : ℚ) * 3)) = 0 := by
      rw [(by norm_num : ((-10 : ℚ) * 3) = (-30 : ℚ)),
        min_eq_right (by norm_num : (-30 : ℚ) ≤ 5)]
      exact max_eq_left (by norm_num)
    simp only [impactScoreSpecFormula]
    rw [hp, hs2]
    have hv : max 1 (min 5 (Int.fdiv 5000 1000 + 1)) = 5 := by decide
    have hP : max 1 (min 5 (5 : ℤ)) = 5 := by decide
    rw [hv, hP]
    have hf : (⌊(((5 + 5 : ℤ) : ℚ) + 0) / 3⌋ : ℤ) = 3 := by
      push_cast
      norm_num
    rw [hf]
    decide

/-- **C4 (amended).** For every candidate with `seasonal_factor ≥ 0` (the
data-model range; the spec formula and the code disagree below 0) and
competition level in {Low, Medium, High}, the computed impact score equals
the spec's clamp formula exactly. -/
theorem impact_score_matches_spec (o : OppData)
    (h : 0 ≤ o.seasonal_factor) :
    calculateImpactScore o = impactScoreSpecFormula o := by
  have h3s : (0 : ℚ) ≤ o.seasonal_factor * 3 := mul_nonneg h (by norm_num)
  have hseason : min 5 (pyTrunc (o.seasonal_factor * 3)) =
      ⌊max 0 (min 5 (o.seasonal_factor * 3))⌋ := by
    rw [pyTrunc_nonneg_eq_floor _ h3s,
      max_eq_right (le_min (by norm_num) h3s), floor_min5]
  simp only [calculateImpactScore, impactScoreSpecFormula]
  rw [floor_int_add_div3, ← hseason, clamp15_comm, clamp15_comm]

/-- Witness for `impact_score_matches_spec` at a concrete candidate. -/
theorem impact_score_matches_spec_witness :
    (0 : ℚ) ≤ (⟨"Digital Planning Printables", "digital_products", 5000,
      CompetitionLevel.medium, 25/2, 6/5, ["digital planner"],
      ["digital_design", "planning"], ["design_software", "time"]⟩ :
        OppData).seasonal_factor ∧
    calculateImpactScore
      ⟨"Digital Planning Printables", "digital_products", 5000,
        CompetitionLevel.medium, 25/2, 6/5, ["digital planner"],
        ["digital_design", "planning"], ["design_software", "time"]⟩ =
    impactScoreSpecFormula
      ⟨"Digital Planning Printables", "digital_products", 5000,
        CompetitionLevel.medium, 25/2, 6/5, ["digital planner"],
        ["digital_design", "planning"], ["design_software", "time"]⟩ :=
  ⟨by norm_num, impact_score_matches_spec _ (by norm_num)⟩

/-- Witness for `priority_score_monotonicity` at a concrete opportunity. -/
theorem priority_score_monotonicity_witness :
    0 ≤ (⟨"w", "digital_products", 5000, CompetitionLevel.medium, 25/2, 6/5,
      [], [], [], 2, 3, 4, "Quick Win"⟩ : MarketOpportunity).search_volume ∧
    calculatePriorityScore
      { (⟨"w", "digital_products", 5000, CompetitionLevel.medium, 25/2, 6/5,
          [], [], [], 2, 3, 4, "Quick Win"⟩ : MarketOpportunity) with
        impact_score := 3, confidence_score := 4, effort_score := 2 } ≤
    calculatePriorityScore
      { (⟨"w", "digital_products", 5000, CompetitionLevel.medium, 25/2, 6/5,
          [], [], [], 2, 3, 4, "Quick Win"⟩ : MarketOpportunity) with
        impact_score := 5, confidence_score := 4, effort_score := 2 } :=
  ⟨by norm_num,
    (priority_score_monotonicity _ (by norm_num)).1 3 5 4 2 (by norm_num)
      (by norm_num) (by norm_num) (by norm_num) (by norm_num) (by norm_num)
      (by norm_num)⟩

end EtsyTool
